import Mathlib

/-
Verification development for the ChainReaction supply-chain demo.

The subject is the client-side simulated real-time event pipeline:
`src/lib/hooks/useSupplyChainStream.ts` (the fleet timeline simulator)
together with the route resolver `fetchRoute` from `lib/utils/routing.ts`
(whose code is reproduced inside the same source file).

The embedding is a shallow one: the React hook's state (trucks, event
log, arbitrage slot, the `routeLoaded` flag) becomes a `SimState`
record; `setTimeout`/`clearTimeout` become an explicit list of pending
timers carrying their scheduled fire time, an insertion sequence number
(JS fires same-deadline timers in insertion order) and their callback
payload; `Date.now()` becomes the explicit clock field `now`;
unmounting becomes a `mounted` flag (React drops state updates issued
after unmount, so every setState in the model is guarded by `mounted`).
The four scheduled timeline events, the three route configurations and
the user-facing actions `executeArbitrage` / `dismissArbitrage` are
translated line by line from the source.
-/

namespace SupplyChain

/-- Geographic coordinate, `[longitude, latitude]` in the source.
Modelled over `ℚ` so that the decimal literals of the configuration
are exact. -/
abbrev Coord := ℚ × ℚ

/-- The `Truck` interface from `lib/types`: the tracked entity. -/
structure Truck where
  id : String
  cargoValue : Int
  velocity : Int
  status : String
  position : Coord
  destination : Coord
  route : List Coord
  driver : String
  deriving DecidableEq, Repr

/-- The `AgentEvent` interface: one log entry of the agent stream.
`timestamp` is milliseconds (the source stores a `Date`). -/
structure AgentEvent where
  id : String
  timestamp : Nat
  type : String
  message : String
  severity : String
  deriving DecidableEq, Repr

/-- The `ArbitrageOpportunity` interface. -/
structure ArbitrageOpportunity where
  truckId : String
  projectedPenalty : Int
  solutionType : String
  solutionCost : Int
  netSavings : Int
  details : String
  deriving DecidableEq, Repr

/-- One entry of the `ROUTES` configuration array.  The source field
`end` is a Lean keyword, rendered here as `end_`. -/
structure RouteConfig where
  id : String
  driver : String
  start : Coord
  end_ : Coord
  cargoValue : Int
  velocity : Int
  deriving DecidableEq, Repr

/-- The fixed `ROUTES` configuration of `useSupplyChainStream.ts`
(lines 8-33): three trucks with origins, destinations, cargo values
and initial velocities. -/
def ROUTES : List RouteConfig :=
  [ { id := "TRK-402", driver := "Priya Sharma",
      start := (mkRat 738567 10000, mkRat 185204 10000), end_ := (mkRat 728777 10000, mkRat 190760 10000),
      cargoValue := 120000, velocity := 68 },
    { id := "TRK-301", driver := "Rajesh Kumar",
      start := (mkRat 775946 10000, mkRat 129716 10000), end_ := (mkRat 772090 10000, mkRat 286139 10000),
      cargoValue := 85000, velocity := 72 },
    { id := "TRK-205", driver := "Anita Desai",
      start := (mkRat 728777 10000, mkRat 190760 10000), end_ := (mkRat 883639 10000, mkRat 225726 10000),
      cargoValue := 95000, velocity := 70 } ]

/-- `createTruck` (lines 35-51).  `position` is `route[0] || [0, 0]`,
`destination` is `route[route.length - 1] || [0, 0]`.  The source
defaults `status` to "on-time"; every call site uses that default, and
here the argument is passed explicitly. -/
def createTruck (id driver : String) (cargoValue velocity : Int)
    (route : List Coord) (status : String) : Truck :=
  { id := id, cargoValue := cargoValue, velocity := velocity,
    status := status,
    position := route.headD (0, 0),
    destination := route.getLastD (0, 0),
    route := route, driver := driver }

/-- A route candidate of the OSRM response: `routes[i]` with its
`geometry.coordinates`. -/
structure RouteCandidate where
  coordinates : List Coord
  deriving DecidableEq, Repr

/-- What the outside world hands `fetchRoute`: the fetch can reject
(network error), `res.json()` can throw (malformed payload), or a JSON
object `{ code, routes }` is obtained. -/
inductive FetchInput where
  | networkError
  | malformedPayload
  | payload (code : String) (routes : List RouteCandidate)
  deriving DecidableEq, Repr

/-- A JavaScript exception escaping `fetchRoute`. -/
inductive JsError where
  | fetchFailed
  | parseError
  | typeError
  deriving DecidableEq, Repr

/-- `fetchRoute` from `lib/utils/routing.ts` (reproduced at lines
928-942 of the source file): awaits `fetch` (a rejection propagates),
awaits `res.json()` (a parse failure propagates), and then
`if (data.code === 'Ok') return data.routes[0].geometry.coordinates;
return null;` — when `routes` is empty, `data.routes[0]` is
`undefined` and reading `.geometry` throws a `TypeError`. -/
def fetchRoute : FetchInput → Except JsError (Option (List Coord))
  | .networkError => .error .fetchFailed
  | .malformedPayload => .error .parseError
  | .payload code routes =>
      if code = "Ok" then
        match routes with
        | [] => .error .typeError
        | r :: _ => .ok (some r.coordinates)
      else .ok none

/-- `true` exactly when `fetchRoute` does not deliver a usable
(non-empty) multi-point route: it threw, returned `null`, or returned
an empty coordinate list. -/
def routeUnavailable (r : FetchInput) : Bool :=
  match fetchRoute r with
  | .ok (some route) => route.length == 0
  | .ok none => true
  | .error _ => true

/-- What a fired timeline event returns (lines 53-79): an object with
optional `trucks`, `events` and `arbitrage` fields.  The outer
`Option` on `arbitrage` distinguishes an absent field (`undefined`)
from a present `null`. -/
structure ActionResult where
  trucks : Option (List Truck)
  events : Option (List AgentEvent)
  arbitrage : Option (Option ArbitrageOpportunity)

/-- One entry of the `events` timeline array: a millisecond offset and
an action.  The action receives the clock value (`Date.now()` at fire
time) and the current truck list. -/
structure TimelineEvent where
  time : Nat
  action : Nat → List Truck → ActionResult

/-- Timeline entry at offset 2000 (lines 54-57): a sensor log entry
only, no entity mutation, no arbitrage field.  Like every dynamic log
id of the source, the id is the string `evt-` followed by
`Date.now()`. -/
def ev2000 : TimelineEvent :=
  { time := 2000,
    action := fun now _ =>
      { trucks := none,
        events := some [{ id := "evt-" ++ toString now, timestamp := now,
                          type := "sensor",
                          message := "GPS sensors operational",
                          severity := "info" }],
        arbitrage := none } }

/-- Timeline entry at offset 5000 (lines 58-64): TRK-402 gets velocity
0 and status delayed; a warning log entry. -/
def ev5000 : TimelineEvent :=
  { time := 5000,
    action := fun now trucks =>
      { trucks := some (trucks.map fun t =>
          if t.id = "TRK-402" then
            { t with velocity := 0, status := "delayed" } else t),
        events := some [{ id := "evt-" ++ toString now, timestamp := now,
                          type := "alert",
                          message := "TRK-402 velocity dropped to 0 km/h",
                          severity := "warning" }],
        arbitrage := none } }

/-- Timeline entry at offset 8000 (lines 65-71): TRK-402 gets velocity
0 and status critical; a critical log entry. -/
def ev8000 : TimelineEvent :=
  { time := 8000,
    action := fun now trucks =>
      { trucks := some (trucks.map fun t =>
          if t.id = "TRK-402" then
            { t with velocity := 0, status := "critical" } else t),
        events := some [{ id := "evt-" ++ toString now, timestamp := now,
                          type := "alert",
                          message := "TRK-402 CRITICAL - SLA threshold exceeded",
                          severity := "critical" }],
        arbitrage := none } }

/-- Timeline entry at offset 12000 (lines 72-78): the arbitrage
opportunity for TRK-402 is created and an arbitrage-category critical
log entry is emitted; no entity mutation. -/
def ev12000 : TimelineEvent :=
  { time := 12000,
    action := fun now _ =>
      { trucks := none,
        events := some [{ id := "evt-" ++ toString now, timestamp := now,
                          type := "arbitrage",
                          message := "ðŸ’Ž ARBITRAGE OPPORTUNITY - Net Savings: $1,700",
                          severity := "critical" }],
        arbitrage := some (some
          { truckId := "TRK-402", projectedPenalty := 2500,
            solutionType := "Relief Truck via Spot Market",
            solutionCost := 800, netSavings := 1700,
            details := "Deploy backup truck - ETA 45 min" }) } }

/-- The fixed playback timeline `events` array (lines 53-79). -/
def events : List TimelineEvent := [ev2000, ev5000, ev8000, ev12000]

/-- The payload of one pending `setTimeout` registration: either one
of the playback timeline events (tracked in the effect's `timers`
array and cleared on unmount), or the grace-delay callback of
`executeArbitrage`, carrying the `arbitrage` value its closure
captured (untracked — never cleared). -/
inductive TimerPayload where
  | playback (e : TimelineEvent)
  | grace (captured : Option ArbitrageOpportunity)

/-- `true` on the playback timers — exactly those the effect cleanup
`timers.forEach(t => clearTimeout(t))` cancels. -/
def TimerPayload.isPlayback : TimerPayload → Bool
  | .playback _ => true
  | .grace _ => false

/-- A pending timer: insertion sequence number (JavaScript fires
same-deadline timers in insertion order), absolute fire time, and the
callback payload. -/
structure Timer where
  seq : Nat
  fireTime : Nat
  payload : TimerPayload

/-- The whole state of one `useSupplyChainStream` instance: clock,
React state (`trucks`, `eventsLog`, `arbitrage`, `routeLoaded`), the
mount flag, the progress of the `loadRoutes` loop (`configsRemaining`,
the local accumulator `loadedAcc`), and the pending timers. -/
structure SimState where
  now : Nat
  trucks : List Truck
  eventsLog : List AgentEvent
  arbitrage : Option ArbitrageOpportunity
  routeLoaded : Bool
  mounted : Bool
  configsRemaining : List RouteConfig
  loadedAcc : List Truck
  pendingTimers : List Timer
  nextSeq : Nat

/-- State right after mount (lines 82-85): no trucks, the single
`init` log entry, no opportunity, `routeLoaded` false, the `ROUTES`
list still to process, no timers. -/
def initialState (t0 : Nat) : SimState :=
  { now := t0, trucks := [],
    eventsLog := [{ id := "init", timestamp := t0, type := "system",
                    message := "ðŸš€ Agent initialized", severity := "info" }],
    arbitrage := none, routeLoaded := false, mounted := true,
    configsRemaining := ROUTES, loadedAcc := [],
    pendingTimers := [], nextSeq := 0 }

/-- Register a new `setTimeout`. -/
def addTimer (fireTime : Nat) (p : TimerPayload) (s : SimState) : SimState :=
  { s with pendingTimers := s.pendingTimers ++ [⟨s.nextSeq, fireTime, p⟩],
           nextSeq := s.nextSeq + 1 }

/-- The playback effect body (lines 180-190): one `setTimeout` per
timeline event, at the event's offset from the moment the effect runs. -/
def schedulePlayback (s : SimState) : SimState :=
  events.foldl (fun acc e => addTimer (acc.now + e.time) (.playback e) acc) s

/-- One iteration of the `loadRoutes` loop body (lines 94-139) for one
configuration: `fetchRoute` succeeding with a non-empty route yields a
truck on that route plus a `route loaded` log entry; a `null`/empty
result or a thrown error (caught by the inner `try`) yields the
two-point fallback truck and no log entry. -/
def processConfig (now : Nat) (cfg : RouteConfig) (r : FetchInput) :
    Truck × Option AgentEvent :=
  match fetchRoute r with
  | .ok (some route) =>
      if route.length > 0 then
        (createTruck cfg.id cfg.driver cfg.cargoValue cfg.velocity route "on-time",
         some { id := "evt-route-" ++ cfg.id ++ "-" ++ toString now,
                timestamp := now, type := "system",
                message := " " ++ cfg.id ++ " route loaded (" ++
                  toString route.length ++ " waypoints)",
                severity := "info" })
      else
        (createTruck cfg.id cfg.driver cfg.cargoValue cfg.velocity
          [cfg.start, cfg.end_] "on-time", none)
  | .ok none =>
      (createTruck cfg.id cfg.driver cfg.cargoValue cfg.velocity
        [cfg.start, cfg.end_] "on-time", none)
  | .error _ =>
      (createTruck cfg.id cfg.driver cfg.cargoValue cfg.velocity
        [cfg.start, cfg.end_] "on-time", none)

/-- End of the `loadRoutes` loop (lines 145-153): publish the
accumulated trucks, log `N trucks initialized`, flip `routeLoaded` —
which makes the playback effect run and schedule the four timers.
After unmount the state updates are dropped and the effect does not
run. -/
def finishInit (s : SimState) : SimState :=
  if s.mounted then
    schedulePlayback
      { s with trucks := s.loadedAcc,
               eventsLog :=
                 { id := "evt-all-routes-" ++ toString s.now,
                   timestamp := s.now, type := "system",
                   message := " " ++ toString s.loadedAcc.length ++
                     " trucks initialized with real routes",
                   severity := "info" } :: s.eventsLog,
               routeLoaded := true }
  else s

/-- Does the grace callback's condition `t.id === arbitrage?.truckId`
hold?  With a `null` captured opportunity the right-hand side is
`undefined` and no truck matches. -/
def matchesCaptured (captured : Option ArbitrageOpportunity) (t : Truck) : Bool :=
  match captured with
  | some a => t.id == a.truckId
  | none => false

/-- A timer's deadline is reached: it leaves the pending list and the
clock shows its fire time. -/
def popTimer (tm : Timer) (s : SimState) : SimState :=
  { s with pendingTimers :=
             s.pendingTimers.filter (fun x => x.seq != tm.seq),
           now := max s.now tm.fireTime }

/-- How a fired playback callback commits its action result (lines
182-187): `result.events` is prepended to the log, `result.arbitrage`
is stored when the field is present, and the trucks become
`result.trucks || current`. -/
def applyActionResult (r : ActionResult) (s : SimState) : SimState :=
  let s1 := match r.events with
    | some es => { s with eventsLog := es ++ s.eventsLog }
    | none => s
  let s2 := match r.arbitrage with
    | some a => { s1 with arbitrage := a }
    | none => s1
  { s2 with trucks := r.trucks.getD s2.trucks }

/-- Run a fired timer's callback.  State updates issued after unmount
are dropped (React).  A playback callback (lines 181-188) computes its
action result from the current trucks and commits it.  The grace
callback of `executeArbitrage` (lines 197-200) maps the trucks through
the captured opportunity's id and clears the opportunity slot. -/
def runCallback (p : TimerPayload) (s : SimState) : SimState :=
  if s.mounted then
    match p with
    | .playback e => applyActionResult (e.action s.now s.trucks) s
    | .grace captured =>
        { s with
          trucks := s.trucks.map (fun t =>
            if matchesCaptured captured t then
              { t with velocity := 65, status := "resolved" } else t),
          arbitrage := none }
  else s

/-- Execute a timer whose deadline was reached: remove it from the
pending list and run its callback. -/
def fireTimer (tm : Timer) (s : SimState) : SimState :=
  runCallback tm.payload (popTimer tm s)

/-- Earliest timer among those due at or before `t`, ordered by
(fire time, insertion sequence) — standard timer-queue semantics. -/
def dueMin (t : Nat) : List Timer → Option Timer
  | [] => none
  | tm :: rest =>
      match dueMin t rest with
      | none => if tm.fireTime ≤ t then some tm else none
      | some best =>
          if tm.fireTime ≤ t then
            if tm.fireTime < best.fireTime ∨
               (tm.fireTime = best.fireTime ∧ tm.seq < best.seq) then
              some tm
            else some best
          else some best

/-- Fire every due timer in deadline order; the fuel is an upper bound
on the number of pending timers (no callback registers a new timer). -/
def advanceLoop : Nat → Nat → SimState → SimState
  | 0, t, s => { s with now := max s.now t }
  | fuel + 1, t, s =>
      match dueMin t s.pendingTimers with
      | none => { s with now := max s.now t }
      | some tm => advanceLoop fuel t (fireTimer tm s)

/-- Let wall-clock time reach `t`: every pending timer whose deadline
is at or before `t` fires, in deadline order. -/
def advance (t : Nat) (s : SimState) : SimState :=
  advanceLoop s.pendingTimers.length t s

/-- `executeArbitrage` (lines 195-201): immediately prepend the
`Solution executed` log entry, then `setTimeout` a 2000 ms grace
callback whose closure captures the current `arbitrage` value.  After
unmount the consumer no longer holds the callback. -/
def executeArbitrage (s : SimState) : SimState :=
  if s.mounted then
    addTimer (s.now + 2000) (.grace s.arbitrage)
      { s with eventsLog :=
          { id := "evt-" ++ toString s.now, timestamp := s.now,
            type := "system",
            message := "âœ… Solution executed - Relief truck dispatched",
            severity := "info" } :: s.eventsLog }
  else s

/-- `dismissArbitrage` (lines 203-206): clear the opportunity slot and
prepend the dismissal log entry. -/
def dismissArbitrage (s : SimState) : SimState :=
  if s.mounted then
    { s with arbitrage := none,
             eventsLog :=
               { id := "evt-" ++ toString s.now, timestamp := s.now,
                 type := "system",
                 message := "Arbitrage opportunity dismissed",
                 severity := "info" } :: s.eventsLog }
  else s

/-- Unmount (line 192): the playback effect's cleanup clears exactly
the timers in its `timers` array — the playback timers.  The grace
timers of `executeArbitrage` are in no cleanup and stay pending. -/
def teardown (s : SimState) : SimState :=
  { s with mounted := false,
           pendingTimers := s.pendingTimers.filter
             (fun tm => !tm.payload.isPlayback) }

/-- The externally triggered happenings of one session, in order: the
`fetchRoute` call for the next pending configuration resolving with a
given outcome, wall-clock time advancing, the two user actions, and
unmount. -/
inductive Op where
  | routeResult (r : FetchInput)
  | advance (t : Nat)
  | execute
  | dismiss
  | teardown

/-- Interpret one happening against the state. -/
def step (s : SimState) (op : Op) : SimState :=
  match op with
  | .routeResult r =>
      match s.configsRemaining with
      | [] => s
      | cfg :: rest =>
          let pr := processConfig s.now cfg r
          let s1 := { s with configsRemaining := rest,
                             loadedAcc := s.loadedAcc ++ [pr.1] }
          let s2 := match pr.2 with
            | some e =>
                if s1.mounted then { s1 with eventsLog := e :: s1.eventsLog }
                else s1
            | none => s1
          if rest.isEmpty then finishInit s2 else s2
  | .advance t => advance t s
  | .execute => executeArbitrage s
  | .dismiss => dismissArbitrage s
  | .teardown => teardown s

/-- Run a whole session from mount. -/
def run (t0 : Nat) (ops : List Op) : SimState :=
  ops.foldl step (initialState t0)

/-- All the intermediate states of a session, initial state included. -/
def runStates (s : SimState) : List Op → List SimState
  | [] => [s]
  | op :: ops => s :: runStates (step s op) ops

/-- A successful OSRM response carrying one route candidate with the
given coordinates. -/
def okFetch (cs : List Coord) : FetchInput := .payload "Ok" [⟨cs⟩]

/-- A multi-point route for TRK-402 (Pune to Mumbai). -/
def refRoute1 : List Coord :=
  [(mkRat 738567 10000, mkRat 185204 10000), (mkRat 736 10, mkRat 188 10), (mkRat 731 10, mkRat 190 10), (mkRat 728777 10000, mkRat 190760 10000)]

/-- A multi-point route for TRK-301 (Bangalore to Delhi). -/
def refRoute2 : List Coord :=
  [(mkRat 775946 10000, mkRat 129716 10000), (mkRat 774 10, mkRat 200 10), (mkRat 772090 10000, mkRat 286139 10000)]

/-- A multi-point route for TRK-205 (Mumbai to Kolkata). -/
def refRoute3 : List Coord :=
  [(mkRat 728777 10000, mkRat 190760 10000), (mkRat 800 10, mkRat 210 10), (mkRat 883639 10000, mkRat 225726 10000)]

/-- Reference initialization: the three `fetchRoute` calls succeed, the
loop's 300 ms inter-request delays pass in between; initialization
completes at clock 600 and the four playback timers are scheduled at
2600, 5600, 8600 and 12600. -/
def initOps : List Op :=
  [.routeResult (okFetch refRoute1), .advance 300,
   .routeResult (okFetch refRoute2), .advance 600,
   .routeResult (okFetch refRoute3)]

/-- Reference playback: time passes each scheduled deadline in turn. -/
def playbackOps : List Op :=
  [.advance 2600, .advance 5600, .advance 8600, .advance 12600]

/-- The full reference run in which the user dismisses the
opportunity. -/
def refOpsDismiss : List Op := initOps ++ playbackOps ++ [.dismiss]

/-- The full reference run in which the user executes the fix and the
2000 ms grace delay then elapses. -/
def refOpsExecute : List Op :=
  initOps ++ playbackOps ++ [.execute, .advance 14600]

/-- Status of the target entity TRK-402, when it exists. -/
def targetStatus (s : SimState) : Option String :=
  (s.trucks.find? (fun t => t.id == "TRK-402")).map (fun t => t.status)

/-- Collapse consecutive repeats, leaving the sequence of distinct
observed values. -/
def dedupConsecutive : List String → List String
  | [] => []
  | [a] => [a]
  | a :: b :: rest =>
      if a = b then dedupConsecutive (b :: rest)
      else a :: dedupConsecutive (b :: rest)

/-- The sequence of distinct status values observed for TRK-402 over a
session, sampled at every intermediate state. -/
def statusTrace (t0 : Nat) (ops : List Op) : List String :=
  dedupConsecutive ((runStates (initialState t0) ops).filterMap targetStatus)

/-- Velocity of the target entity TRK-402, when it exists. -/
def targetVelocity (s : SimState) : Option Int :=
  (s.trucks.find? (fun t => t.id == "TRK-402")).map (fun t => t.velocity)

/-- Position of a status in the incident lifecycle
on-time, delayed, critical, resolved. -/
def statusRank : String → Nat
  | "on-time" => 0
  | "delayed" => 1
  | "critical" => 2
  | "resolved" => 3
  | _ => 4

/-- Reference run: state once initialization has completed. -/
def refInit : SimState := run 0 initOps

/-- Reference run: state after the T+2000 timer fired. -/
def refAt2000 : SimState := run 0 (initOps ++ [Op.advance 2600])

/-- Reference run: state after the T+5000 timer fired. -/
def refAt5000 : SimState :=
  run 0 (initOps ++ [Op.advance 2600, Op.advance 5600])

/-- Reference run: state after the T+8000 timer fired. -/
def refAt8000 : SimState :=
  run 0 (initOps ++ [Op.advance 2600, Op.advance 5600, Op.advance 8600])

/-- Reference run: state after the T+12000 timer fired. -/
def refAt12000 : SimState := run 0 (initOps ++ playbackOps)

/-- `true` when every consecutive pair of the list moves exactly one
step forward in the lifecycle ranking. -/
def monotoneSteps : List String → Bool
  | [] => true
  | [_] => true
  | a :: b :: rest =>
      (statusRank a + 1 == statusRank b) && monotoneSteps (b :: rest)

/-- The opportunity created by the T+12000 timeline event, as a named
value for the statements below. -/
def refOpportunity : ArbitrageOpportunity :=
  { truckId := "TRK-402", projectedPenalty := 2500,
    solutionType := "Relief Truck via Spot Market",
    solutionCost := 800, netSavings := 1700,
    details := "Deploy backup truck - ETA 45 min" }

/-- The truck TRK-402 as initialized in the reference run. -/
def sampleTruck : Truck :=
  createTruck "TRK-402" "Priya Sharma" 120000 68 refRoute1 "on-time"

/-- An arbitrary concrete route configuration used as a witness
input. -/
def sampleConfig : RouteConfig :=
  { id := "TRK-X", driver := "Test Driver", start := (1, 2),
    end_ := (3, 4), cargoValue := 10, velocity := 50 }

/-- Run for the implicit-claim scenario: execute the fix, dismiss the
opportunity before the grace delay elapses, then let the grace timer
fire. -/
def c10ops : List Op :=
  initOps ++ playbackOps ++ [Op.execute, Op.dismiss, Op.advance 15000]

/-- Run in which the fix is executed right after the opportunity
appears and the simulator is immediately torn down, while the grace
timer is still pending. -/
def c2ops : List Op := initOps ++ playbackOps ++ [Op.execute, Op.teardown]

/-- Run tearing the simulator down before T+5000 and then letting time
pass far beyond T+12000. -/
def c2scenarioLate : List Op :=
  initOps ++ [Op.advance 3000, Op.teardown, Op.advance 20000]

/-- The same run stopped at the teardown. -/
def c2scenarioAtTeardown : List Op := initOps ++ [Op.advance 3000, Op.teardown]

/-- The per-entity shape invariant: the route is non-empty and its
first element is the entity's position. -/
def TruckOk (t : Truck) : Prop :=
  t.route ≠ [] ∧ t.route.head? = some t.position

/-- What may sit inside a pending timer of a reachable state: playback
timers carry one of the four configured timeline events. -/
def PayloadOk : TimerPayload → Prop
  | .playback e => e ∈ events
  | .grace _ => True

/-- The inductive invariant of the simulator: pending timers are
well-formed, every truck (published or still accumulating) satisfies
the route-shape invariant, any active opportunity has consistent net
savings, and before `routeLoaded` no playback timer is pending and no
truck is published. -/
structure Inv (s : SimState) : Prop where
  timers : ∀ tm ∈ s.pendingTimers, PayloadOk tm.payload
  trucks : ∀ t ∈ s.trucks, TruckOk t
  acc : ∀ t ∈ s.loadedAcc, TruckOk t
  arb : ∀ a, s.arbitrage = some a →
    a.netSavings = a.projectedPenalty - a.solutionCost
  preload : s.routeLoaded = false →
    (∀ tm ∈ s.pendingTimers, tm.payload.isPlayback = false) ∧ s.trucks = []

theorem truckOk_createTruck (id driver : String) (cv v : Int)
    (route : List Coord) (st : String) (h : route ≠ []) :
    TruckOk (createTruck id driver cv v route st) := by
  match route, h with
  | c :: cs, _ => exact ⟨by simp [createTruck], by simp [createTruck]⟩

theorem truckOk_update (t : Truck) (c : Prop) [Decidable c] (v : Int)
    (st : String) (h : TruckOk t) :
    TruckOk (if c then { t with velocity := v, status := st } else t) := by
  by_cases hc : c
  · simpa [hc] using h
  · simpa [hc] using h

theorem truckOk_processConfig (now : Nat) (cfg : RouteConfig)
    (r : FetchInput) : TruckOk (processConfig now cfg r).1 := by
  unfold processConfig
  rcases fetchRoute r with _ | (_ | route)
  · exact truckOk_createTruck _ _ _ _ _ _ (by simp)
  · exact truckOk_createTruck _ _ _ _ _ _ (by simp)
  · by_cases hl : route.length > 0
    · simpa [hl] using truckOk_createTruck cfg.id cfg.driver cfg.cargoValue
        cfg.velocity route "on-time" (List.length_pos.mp hl)
    · simpa [hl] using truckOk_createTruck cfg.id cfg.driver cfg.cargoValue
        cfg.velocity [cfg.start, cfg.end_] "on-time" (by simp)

theorem truckOk_map (trucks : List Truck) (f : Truck → Truck)
    (hf : ∀ t, TruckOk t → TruckOk (f t)) (h : ∀ t ∈ trucks, TruckOk t) :
    ∀ t ∈ trucks.map f, TruckOk t := by
  intro t' ht'
  rw [List.mem_map] at ht'
  obtain ⟨t, ht, rfl⟩ := ht'
  exact hf t (h t ht)

theorem truckOk_action (e : TimelineEvent) (he : e ∈ events) (now : Nat)
    (trucks : List Truck) (h : ∀ t ∈ trucks, TruckOk t) :
    ∀ t ∈ (e.action now trucks).trucks.getD trucks, TruckOk t := by
  simp only [events, List.mem_cons, List.not_mem_nil, or_false] at he
  rcases he with rfl | rfl | rfl | rfl
  · simpa [ev2000] using h
  · simpa [ev5000] using
      truckOk_map trucks _ (fun t ht => truckOk_update t _ _ _ ht) h
  · simpa [ev8000] using
      truckOk_map trucks _ (fun t ht => truckOk_update t _ _ _ ht) h
  · simpa [ev12000] using h

theorem arbOk_action (e : TimelineEvent) (he : e ∈ events) (now : Nat)
    (trucks : List Truck) (a : ArbitrageOpportunity)
    (ha : (e.action now trucks).arbitrage = some (some a)) :
    a.netSavings = a.projectedPenalty - a.solutionCost := by
  simp only [events, List.mem_cons, List.not_mem_nil, or_false] at he
  rcases he with rfl | rfl | rfl | rfl
  · simp [ev2000] at ha
  · simp [ev5000] at ha
  · simp [ev8000] at ha
  · simp [ev12000] at ha
    subst ha
    rfl

theorem dueMin_mem (t : Nat) (l : List Timer) (tm : Timer)
    (h : dueMin t l = some tm) : tm ∈ l := by
  induction l with
  | nil => simp [dueMin] at h
  | cons hd tl ih =>
      rw [dueMin] at h
      rcases hrec : dueMin t tl with _ | best <;> rw [hrec] at h <;>
        dsimp only at h
      · by_cases hle : hd.fireTime ≤ t
        · rw [if_pos hle] at h
          injection h with h
          subst h
          exact List.mem_cons_self _ _
        · rw [if_neg hle] at h
          exact absurd h (by simp)
      · by_cases hle : hd.fireTime ≤ t
        · rw [if_pos hle] at h
          by_cases hb : hd.fireTime < best.fireTime ∨
              hd.fireTime = best.fireTime ∧ hd.seq < best.seq
          · rw [if_pos hb] at h
            injection h with h
            subst h
            exact List.mem_cons_self _ _
          · rw [if_neg hb] at h
            injection h with h
            subst h
            exact List.mem_cons_of_mem _ (ih hrec)
        · rw [if_neg hle] at h
          injection h with h
          subst h
          exact List.mem_cons_of_mem _ (ih hrec)

theorem applyActionResult_trucks (r : ActionResult) (s : SimState) :
    (applyActionResult r s).trucks = r.trucks.getD s.trucks := by
  unfold applyActionResult
  cases hE : r.events <;> cases hA : r.arbitrage <;> rfl

theorem applyActionResult_eventsLog (r : ActionResult) (s : SimState) :
    (applyActionResult r s).eventsLog = r.events.getD [] ++ s.eventsLog := by
  unfold applyActionResult
  cases hE : r.events <;> cases hA : r.arbitrage <;> simp

theorem applyActionResult_arbitrage (r : ActionResult) (s : SimState) :
    (applyActionResult r s).arbitrage = r.arbitrage.getD s.arbitrage := by
  unfold applyActionResult
  cases hE : r.events <;> cases hA : r.arbitrage <;> rfl

theorem applyActionResult_pendingTimers (r : ActionResult) (s : SimState) :
    (applyActionResult r s).pendingTimers = s.pendingTimers := by
  unfold applyActionResult
  cases hE : r.events <;> cases hA : r.arbitrage <;> rfl

theorem applyActionResult_loadedAcc (r : ActionResult) (s : SimState) :
    (applyActionResult r s).loadedAcc = s.loadedAcc := by
  unfold applyActionResult
  cases hE : r.events <;> cases hA : r.arbitrage <;> rfl

theorem applyActionResult_routeLoaded (r : ActionResult) (s : SimState) :
    (applyActionResult r s).routeLoaded = s.routeLoaded := by
  unfold applyActionResult
  cases hE : r.events <;> cases hA : r.arbitrage <;> rfl

theorem applyActionResult_mounted (r : ActionResult) (s : SimState) :
    (applyActionResult r s).mounted = s.mounted := by
  unfold applyActionResult
  cases hE : r.events <;> cases hA : r.arbitrage <;> rfl

theorem action_trucks_nil (e : TimelineEvent) (he : e ∈ events) (now : Nat) :
    (e.action now []).trucks.getD [] = [] := by
  simp only [events, List.mem_cons, List.not_mem_nil, or_false] at he
  rcases he with rfl | rfl | rfl | rfl <;> rfl

theorem inv_popTimer (tm : Timer) (s : SimState) (h : Inv s) :
    Inv (popTimer tm s) :=
  ⟨fun tm' htm' => h.timers tm' (List.mem_filter.mp htm').1,
   h.trucks, h.acc, h.arb,
   fun hrl => ⟨fun tm' htm' =>
       (h.preload hrl).1 tm' (List.mem_filter.mp htm').1,
     (h.preload hrl).2⟩⟩

theorem inv_runCallback (p : TimerPayload) (s : SimState)
    (hp : PayloadOk p) (h : Inv s) : Inv (runCallback p s) := by
  unfold runCallback
  by_cases hm : s.mounted = true
  · rw [if_pos hm]
    rcases p with e | captured
    · constructor
      · intro tm' htm'
        rw [applyActionResult_pendingTimers] at htm'
        exact h.timers tm' htm'
      · intro t' ht'
        rw [applyActionResult_trucks] at ht'
        exact truckOk_action e hp s.now s.trucks h.trucks t' ht'
      · intro t' ht'
        rw [applyActionResult_loadedAcc] at ht'
        exact h.acc t' ht'
      · intro a' ha'
        rw [applyActionResult_arbitrage] at ha'
        cases hA : (e.action s.now s.trucks).arbitrage with
        | none =>
            rw [hA] at ha'
            exact h.arb a' ha'
        | some a =>
            rw [hA] at ha'
            simp only [Option.getD_some] at ha'
            subst ha'
            exact arbOk_action e hp s.now s.trucks a' hA
      · intro hrl
        rw [applyActionResult_routeLoaded] at hrl
        refine ⟨?_, ?_⟩
        · intro tm' htm'
          rw [applyActionResult_pendingTimers] at htm'
          exact (h.preload hrl).1 tm' htm'
        · rw [applyActionResult_trucks, (h.preload hrl).2]
          exact action_trucks_nil e hp s.now
    · constructor
      · exact h.timers
      · intro t' ht'
        simp only at ht'
        exact truckOk_map s.trucks _
          (fun t ht => truckOk_update t _ _ _ ht) h.trucks t' ht'
      · exact h.acc
      · intro a' ha'
        simp at ha'
      · intro hrl
        exact ⟨(h.preload hrl).1, by simp [(h.preload hrl).2]⟩
  · rw [if_neg hm]
    exact h

theorem inv_fireTimer (tm : Timer) (s : SimState) (h : Inv s)
    (hp : PayloadOk tm.payload) : Inv (fireTimer tm s) :=
  inv_runCallback tm.payload (popTimer tm s) hp (inv_popTimer tm s h)

theorem inv_advanceLoop (fuel t : Nat) (s : SimState) (h : Inv s) :
    Inv (advanceLoop fuel t s) := by
  induction fuel generalizing s with
  | zero => exact ⟨h.timers, h.trucks, h.acc, h.arb, h.preload⟩
  | succ n ih =>
      rw [advanceLoop]
      rcases hd : dueMin t s.pendingTimers with _ | tm
      · exact ⟨h.timers, h.trucks, h.acc, h.arb, h.preload⟩
      · exact ih _ (inv_fireTimer tm s h
          (h.timers tm (dueMin_mem t _ tm hd)))

theorem inv_advance (t : Nat) (s : SimState) (h : Inv s) :
    Inv (advance t s) :=
  inv_advanceLoop _ t s h

theorem schedulePlayback_pendingTimers (s : SimState) :
    (schedulePlayback s).pendingTimers =
      s.pendingTimers ++
        [⟨s.nextSeq, s.now + 2000, .playback ev2000⟩,
         ⟨s.nextSeq + 1, s.now + 5000, .playback ev5000⟩,
         ⟨s.nextSeq + 2, s.now + 8000, .playback ev8000⟩,
         ⟨s.nextSeq + 3, s.now + 12000, .playback ev12000⟩] := by
  simp [schedulePlayback, events, addTimer, ev2000, ev5000, ev8000, ev12000]

theorem schedulePlayback_routeLoaded (s : SimState) :
    (schedulePlayback s).routeLoaded = s.routeLoaded := rfl

/-- A state with the same timers, trucks and arbitrage slot as an
invariant state, and a well-formed accumulator, is invariant. -/
theorem inv_of_fields (s s' : SimState) (h : Inv s)
    (ht : s'.pendingTimers = s.pendingTimers)
    (htr : s'.trucks = s.trucks)
    (hacc : ∀ t ∈ s'.loadedAcc, TruckOk t)
    (harb : s'.arbitrage = s.arbitrage)
    (hrl : s'.routeLoaded = s.routeLoaded) : Inv s' := by
  constructor
  · intro tm htm
    rw [ht] at htm
    exact h.timers tm htm
  · intro t' ht'
    rw [htr] at ht'
    exact h.trucks t' ht'
  · exact hacc
  · intro a ha
    rw [harb] at ha
    exact h.arb a ha
  · intro hload
    rw [hrl] at hload
    exact ⟨fun tm htm => (h.preload hload).1 tm (ht ▸ htm),
           htr ▸ (h.preload hload).2⟩

theorem inv_finishInit (s : SimState) (h : Inv s) : Inv (finishInit s) := by
  unfold finishInit
  by_cases hm : s.mounted = true
  · rw [if_pos hm]
    constructor
    · intro tm htm
      rw [schedulePlayback_pendingTimers] at htm
      rcases List.mem_append.mp htm with hin | hnew
      · exact h.timers tm hin
      · simp only [List.mem_cons, List.not_mem_nil, or_false] at hnew
        rcases hnew with rfl | rfl | rfl | rfl <;> simp [PayloadOk, events]
    · intro t' ht'
      exact h.acc t' ht'
    · intro t' ht'
      exact h.acc t' ht'
    · intro a ha
      exact h.arb a ha
    · intro hrl
      rw [schedulePlayback_routeLoaded] at hrl
      simp at hrl
  · rw [if_neg hm]
    exact h

theorem inv_step (s : SimState) (op : Op) (h : Inv s) : Inv (step s op) := by
  cases op with
  | routeResult r =>
      simp only [step]
      rcases hc : s.configsRemaining with _ | ⟨cfg, rest⟩
      · exact h
      · dsimp only
        have hacc : ∀ t ∈ s.loadedAcc ++ [(processConfig s.now cfg r).1],
            TruckOk t := by
          intro t' ht'
          rcases List.mem_append.mp ht' with hin | hnew
          · exact h.acc t' hin
          · simp only [List.mem_singleton] at hnew
            subst hnew
            exact truckOk_processConfig s.now cfg r
        have h2 : Inv (match (processConfig s.now cfg r).2 with
          | some e =>
              if s.mounted = true then
                { s with eventsLog := e :: s.eventsLog,
                         configsRemaining := rest,
                         loadedAcc :=
                           s.loadedAcc ++ [(processConfig s.now cfg r).1] }
              else
                { s with configsRemaining := rest,
                         loadedAcc :=
                           s.loadedAcc ++ [(processConfig s.now cfg r).1] }
          | none =>
              { s with configsRemaining := rest,
                       loadedAcc :=
                         s.loadedAcc ++ [(processConfig s.now cfg r).1] }) := by
          rcases hpr : (processConfig s.now cfg r).2 with _ | e
          · exact inv_of_fields s _ h rfl rfl hacc rfl rfl
          · dsimp only
            by_cases hm : s.mounted = true
            · rw [if_pos hm]
              exact inv_of_fields s _ h rfl rfl hacc rfl rfl
            · rw [if_neg hm]
              exact inv_of_fields s _ h rfl rfl hacc rfl rfl
        by_cases hre : rest.isEmpty = true
        · rw [if_pos hre]
          exact inv_finishInit _ h2
        · rw [if_neg hre]
          exact h2
  | advance t => exact inv_advance t s h
  | execute =>
      simp only [step]
      unfold executeArbitrage
      by_cases hm : s.mounted = true
      · rw [if_pos hm]
        constructor
        · intro tm htm
          rcases List.mem_append.mp htm with hin | hnew
          · exact h.timers tm hin
          · simp only [List.mem_singleton] at hnew
            subst hnew
            trivial
        · exact h.trucks
        · exact h.acc
        · exact h.arb
        · intro hrl
          refine ⟨?_, (h.preload hrl).2⟩
          intro tm htm
          rcases List.mem_append.mp htm with hin | hnew
          · exact (h.preload hrl).1 tm hin
          · simp only [List.mem_singleton] at hnew
            subst hnew
            rfl
      · rw [if_neg hm]
        exact h
  | dismiss =>
      simp only [step]
      unfold dismissArbitrage
      by_cases hm : s.mounted = true
      · rw [if_pos hm]
        refine ⟨h.timers, h.trucks, h.acc, ?_, ?_⟩
        · intro a ha
          simp at ha
        · intro hrl
          exact ⟨(h.preload hrl).1, (h.preload hrl).2⟩
      · rw [if_neg hm]
        exact h
  | teardown =>
      simp only [step]
      unfold teardown
      refine ⟨?_, h.trucks, h.acc, h.arb, ?_⟩
      · intro tm htm
        exact h.timers tm (List.mem_filter.mp htm).1
      · intro hrl
        exact ⟨fun tm htm => (h.preload hrl).1 tm (List.mem_filter.mp htm).1,
               (h.preload hrl).2⟩

theorem inv_initialState (t0 : Nat) : Inv (initialState t0) := by
  constructor <;> simp [initialState]

theorem inv_foldl (ops : List Op) (s : SimState) (h : Inv s) :
    Inv (ops.foldl step s) := by
  induction ops generalizing s with
  | nil => exact h
  | cons op ops ih => exact ih (step s op) (inv_step s op h)

/-- Every state reachable from mount satisfies the simulator
invariant. -/
theorem inv_run (t0 : Nat) (ops : List Op) : Inv (run t0 ops) :=
  inv_foldl ops (initialState t0) (inv_initialState t0)

theorem runCallback_unmounted (p : TimerPayload) (s : SimState)
    (h : s.mounted = false) : runCallback p s = s := by
  unfold runCallback
  rw [if_neg (by simp [h])]

theorem fireTimer_unmounted (tm : Timer) (s : SimState)
    (h : s.mounted = false) :
    (fireTimer tm s).trucks = s.trucks ∧
    (fireTimer tm s).eventsLog = s.eventsLog ∧
    (fireTimer tm s).arbitrage = s.arbitrage ∧
    (fireTimer tm s).mounted = false := by
  unfold fireTimer
  rw [runCallback_unmounted tm.payload (popTimer tm s) h]
  exact ⟨rfl, rfl, rfl, h⟩

theorem advanceLoop_unmounted (fuel t : Nat) (s : SimState)
    (h : s.mounted = false) :
    (advanceLoop fuel t s).trucks = s.trucks ∧
    (advanceLoop fuel t s).eventsLog = s.eventsLog ∧
    (advanceLoop fuel t s).arbitrage = s.arbitrage ∧
    (advanceLoop fuel t s).mounted = false := by
  induction fuel generalizing s with
  | zero => exact ⟨rfl, rfl, rfl, h⟩
  | succ n ih =>
      rw [advanceLoop]
      rcases hd : dueMin t s.pendingTimers with _ | tm
      · exact ⟨rfl, rfl, rfl, h⟩
      · have hf := fireTimer_unmounted tm s h
        have hrec := ih (fireTimer tm s) hf.2.2.2
        exact ⟨hrec.1.trans hf.1, hrec.2.1.trans hf.2.1,
               hrec.2.2.1.trans hf.2.2.1, hrec.2.2.2⟩

theorem advance_unmounted (t : Nat) (s : SimState) (h : s.mounted = false) :
    (advance t s).trucks = s.trucks ∧
    (advance t s).eventsLog = s.eventsLog ∧
    (advance t s).arbitrage = s.arbitrage ∧
    (advance t s).mounted = false :=
  advanceLoop_unmounted s.pendingTimers.length t s h

/-- Claim C1: in every reachable state, while `routeLoaded` is still
false no playback timer is pending (so no scheduled playback event can
fire before initialization of all configured entities completes) and no
truck is published; and in the reference run the four timed events have
exactly the documented effects — T+2000 a sensor log entry only,
T+5000 TRK-402 velocity 0 and status delayed with a warning log,
T+8000 status critical with a critical log, T+12000 the arbitrage
opportunity with an arbitrage-category log. -/
theorem claim1_playback_gated_and_timeline_effects
    (t0 : Nat) (ops : List Op)
    (h : (run t0 ops).routeLoaded = false) :
    ((∀ tm ∈ (run t0 ops).pendingTimers, tm.payload.isPlayback = false) ∧
     (run t0 ops).trucks = []) ∧
    (refAt2000.trucks = refInit.trucks ∧
     refAt2000.arbitrage = none ∧
     refAt2000.eventsLog =
       ⟨"evt-2600", 2600, "sensor", "GPS sensors operational", "info"⟩ ::
         refInit.eventsLog ∧
     targetStatus refAt5000 = some "delayed" ∧
     targetVelocity refAt5000 = some 0 ∧
     refAt5000.eventsLog =
       ⟨"evt-5600", 5600, "alert", "TRK-402 velocity dropped to 0 km/h",
        "warning"⟩ :: refAt2000.eventsLog ∧
     targetStatus refAt8000 = some "critical" ∧
     refAt8000.eventsLog =
       ⟨"evt-8600", 8600, "alert", "TRK-402 CRITICAL - SLA threshold exceeded",
        "critical"⟩ :: refAt5000.eventsLog ∧
     refAt8000.arbitrage = none ∧
     refAt12000.arbitrage = some refOpportunity ∧
     refAt12000.trucks = refAt8000.trucks ∧
     refAt12000.eventsLog =
       ⟨"evt-12600", 12600, "arbitrage",
        "ðŸ’Ž ARBITRAGE OPPORTUNITY - Net Savings: $1,700", "critical"⟩ ::
         refAt8000.eventsLog) :=
  ⟨(inv_run t0 ops).preload h, by decide⟩

/-- Witness for C1, at the freshly mounted state. -/
theorem claim1_witness :
    (run 0 []).routeLoaded = false ∧ (run 0 []).trucks = [] :=
  ⟨by decide, (claim1_playback_gated_and_timeline_effects 0 [] (by decide)).1.2⟩

/-- Claim C2 counterexample: execute the fix right after the
opportunity appears and immediately tear the simulator down — one
timer (the grace-delay timer of `executeArbitrage`, not a playback
timer) is still pending after teardown, so not every pending timer is
cancelled. -/
theorem claim2_counterexample :
    ((run 0 c2ops).pendingTimers.map (fun tm => tm.payload.isPlayback)) =
      [false] ∧
    (run 0 c2ops).pendingTimers.length = 1 ∧
    (run 0 c2ops).mounted = false := by decide

/-- Claim C2 (amended): teardown cancels every pending playback timer
and keeps exactly the non-playback (grace) timers; after unmount,
advancing time produces no mutation of trucks, log or opportunity; in
particular, tearing down before T+5000 and advancing past T+12000
yields zero additional mutations or log entries. -/
theorem claim2_teardown_cancels_playback (s : SimState) (t : Nat)
    (hm : s.mounted = false) :
    (teardown s).pendingTimers.all (fun tm => !tm.payload.isPlayback) = true ∧
    (teardown s).pendingTimers.length =
      s.pendingTimers.countP (fun tm => !tm.payload.isPlayback) ∧
    ((advance t s).trucks = s.trucks ∧
     (advance t s).eventsLog = s.eventsLog ∧
     (advance t s).arbitrage = s.arbitrage) ∧
    ((run 0 c2scenarioLate).trucks = (run 0 c2scenarioAtTeardown).trucks ∧
     (run 0 c2scenarioLate).eventsLog =
       (run 0 c2scenarioAtTeardown).eventsLog ∧
     (run 0 c2scenarioLate).arbitrage =
       (run 0 c2scenarioAtTeardown).arbitrage) := by
  refine ⟨?_, ?_, ?_, by decide⟩
  · rw [List.all_eq_true]
    intro tm htm
    exact (List.mem_filter.mp htm).2
  · exact (List.countP_eq_length_filter _ _).symm
  · have := advance_unmounted t s hm
    exact ⟨this.1, this.2.1, this.2.2.1⟩

/-- Witness for C2 (amended), at the torn-down reference state. -/
theorem claim2_witness :
    (run 0 c2ops).mounted = false ∧
    (advance 99999 (run 0 c2ops)).trucks = (run 0 c2ops).trucks :=
  ⟨by decide,
   (claim2_teardown_cancels_playback (run 0 c2ops) 99999 (by decide)).2.2.1.1⟩

/-- Claim C3 counterexample: `fetchRoute` does throw to its caller on
a network error, on a malformed payload, and on an empty route list
(`data.routes[0]` is undefined, so reading `.geometry` raises); only a
non-success response code yields `null`. -/
theorem claim3_counterexample :
    fetchRoute FetchInput.networkError = Except.error JsError.fetchFailed ∧
    fetchRoute FetchInput.malformedPayload = Except.error JsError.parseError ∧
    fetchRoute (FetchInput.payload "Ok" []) = Except.error JsError.typeError ∧
    fetchRoute (FetchInput.payload "NoRoute" []) = Except.ok none :=
  ⟨rfl, rfl, rfl, rfl⟩

/-- Claim C3 (amended): for every input, either `fetchRoute` returns a
usable non-empty route which the caller installs verbatim, or — for
every failure mode, thrown or `null` or empty — the caller ends up
with exactly the two-point straight-line fallback and no route-loaded
log entry: all failure kinds collapse into one outcome handled
identically. -/
theorem claim3_failure_collapse (now : Nat) (cfg : RouteConfig)
    (r : FetchInput) :
    (∃ coords, fetchRoute r = Except.ok (some coords) ∧ coords ≠ [] ∧
      (processConfig now cfg r).1.route = coords) ∨
    ((processConfig now cfg r).1.route = [cfg.start, cfg.end_] ∧
     (processConfig now cfg r).2 = none) := by
  unfold processConfig
  rcases hf : fetchRoute r with e | o
  · exact Or.inr ⟨rfl, rfl⟩
  · rcases o with _ | route
    · exact Or.inr ⟨rfl, rfl⟩
    · dsimp only
      by_cases hl : route.length > 0
      · rw [if_pos hl]
        exact Or.inl ⟨route, rfl, List.length_pos.mp hl, rfl⟩
      · rw [if_neg hl]
        exact Or.inr ⟨rfl, rfl⟩

/-- Claim C4 counterexample: calling `executeArbitrage` with no active
opportunity is observable — it appends a log entry (and registers a
timer), so it is not effect-free. -/
theorem claim4_counterexample :
    (run 0 []).arbitrage = none ∧
    (run 0 [Op.execute]).eventsLog.length = 2 ∧
    (run 0 []).eventsLog.length = 1 ∧
    (run 0 [Op.execute]).eventsLog ≠ (run 0 []).eventsLog ∧
    (run 0 [Op.execute]).pendingTimers.length = 1 := by decide

/-- Claim C4 (amended): calling `executeArbitrage` with no active
opportunity changes no entity and neither creates nor clears an
opportunity — but it does append the `Solution executed` log entry and
schedules a grace timer capturing `null`, whose callback matches no
entity when it fires. -/
theorem claim4_execute_without_opportunity (s : SimState)
    (hm : s.mounted = true) (h : s.arbitrage = none) :
    (executeArbitrage s).trucks = s.trucks ∧
    (executeArbitrage s).arbitrage = none ∧
    (executeArbitrage s).eventsLog =
      { id := "evt-" ++ toString s.now, timestamp := s.now, type := "system",
        message := "âœ… Solution executed - Relief truck dispatched",
        severity := "info" } :: s.eventsLog ∧
    (executeArbitrage s).pendingTimers =
      s.pendingTimers ++ [⟨s.nextSeq, s.now + 2000, .grace none⟩] ∧
    (∀ s2 : SimState,
      (runCallback (TimerPayload.grace none) s2).trucks = s2.trucks) := by
  unfold executeArbitrage
  rw [if_pos hm]
  refine ⟨rfl, h, rfl, by rw [h]; rfl, ?_⟩
  intro s2
  unfold runCallback
  by_cases hm2 : s2.mounted = true
  · rw [if_pos hm2]
    simp [matchesCaptured]
  · rw [if_neg hm2]

/-- Witness for C4 (amended), at the freshly mounted state. -/
theorem claim4_witness :
    (run 0 []).mounted = true ∧ (run 0 []).arbitrage = none ∧
    (executeArbitrage (run 0 [])).trucks = (run 0 []).trucks :=
  ⟨by decide, by decide,
   (claim4_execute_without_opportunity (run 0 []) (by decide) (by decide)).1⟩

/-- Claim C5: over the reference timeline the sequence of distinct
status values observed for TRK-402 is exactly on-time, delayed,
critical, staying critical when the opportunity is dismissed and
ending resolved when the fix is executed; every transition moves
exactly one lifecycle step forward (the scripted path never reaches
resolved — only the execute action, from critical, does). -/
theorem claim5_status_sequence :
    statusTrace 0 refOpsDismiss = ["on-time", "delayed", "critical"] ∧
    statusTrace 0 refOpsExecute =
      ["on-time", "delayed", "critical", "resolved"] ∧
    monotoneSteps (statusTrace 0 refOpsDismiss) = true ∧
    monotoneSteps (statusTrace 0 refOpsExecute) = true := by decide

/-- Claim C6: in every reachable state every published truck has a
non-empty route whose first element is the truck's position; and when
the route resolver cannot deliver a usable multi-point path, the
initialized truck's route is exactly the two-point straight line
origin-destination. -/
theorem claim6_route_invariant (t0 : Nat) (ops : List Op) (tr : Truck)
    (h1 : tr ∈ (run t0 ops).trucks) (now : Nat) (cfg : RouteConfig)
    (r : FetchInput) (h2 : routeUnavailable r = true) :
    (tr.route ≠ [] ∧ tr.route.head? = some tr.position) ∧
    (processConfig now cfg r).1.route = [cfg.start, cfg.end_] := by
  refine ⟨(inv_run t0 ops).trucks tr h1, ?_⟩
  unfold routeUnavailable at h2
  unfold processConfig
  rcases hf : fetchRoute r with e | o
  · rfl
  · rcases o with _ | route
    · rfl
    · rw [hf] at h2
      dsimp only at h2 ⊢
      rw [if_neg (by simpa using h2)]
      rfl

/-- Witness for C6, at the initialized reference truck and a failing
fetch. -/
theorem claim6_witness :
    sampleTruck ∈ (run 0 initOps).trucks ∧
    routeUnavailable FetchInput.networkError = true ∧
    ((sampleTruck.route ≠ [] ∧
      sampleTruck.route.head? = some sampleTruck.position) ∧
     (processConfig 0 sampleConfig FetchInput.networkError).1.route =
       [sampleConfig.start, sampleConfig.end_]) :=
  ⟨by decide, by decide,
   claim6_route_invariant 0 initOps sampleTruck (by decide) 0 sampleConfig
     FetchInput.networkError (by decide)⟩

/-- Claim C7: two user actions in the same millisecond produce log
entries with the same id — the generation strategy `evt-` plus
`Date.now()` does not guarantee uniqueness; two `dismissArbitrage`
calls with an unchanged clock yield the log ids evt-0, evt-0, init. -/
theorem claim7_duplicate_log_ids :
    (run 0 [Op.dismiss, Op.dismiss]).eventsLog.map (fun e => e.id) =
      ["evt-0", "evt-0", "init"] ∧
    ¬ ((run 0 [Op.dismiss, Op.dismiss]).eventsLog.map
        (fun e => e.id)).Nodup := by decide

/-- Claim C8: in every reachable state an active opportunity's net
savings equal its projected penalty minus its solution cost; in the
reference run the opportunity created at T+12000 has projected penalty
2500, solution cost 800 and net savings 1700. -/
theorem claim8_netSavings_invariant (t0 : Nat) (ops : List Op)
    (a : ArbitrageOpportunity) (h : (run t0 ops).arbitrage = some a) :
    a.netSavings = a.projectedPenalty - a.solutionCost ∧
    refAt12000.arbitrage = some refOpportunity ∧
    refOpportunity.projectedPenalty = 2500 ∧
    refOpportunity.solutionCost = 800 ∧
    refOpportunity.netSavings = 1700 :=
  ⟨(inv_run t0 ops).arb a h, by decide, rfl, rfl, rfl⟩

/-- Witness for C8, at the reference state right after T+12000. -/
theorem claim8_witness :
    (run 0 (initOps ++ playbackOps)).arbitrage = some refOpportunity ∧
    refOpportunity.netSavings =
      refOpportunity.projectedPenalty - refOpportunity.solutionCost :=
  ⟨by decide,
   (claim8_netSavings_invariant 0 (initOps ++ playbackOps) refOpportunity
     (by decide)).1⟩

/-- Claim C9: `dismissArbitrage` immediately clears the active
opportunity without touching any entity, and a second call in a row is
a no-op on entity and opportunity state — the implementation does
choose to append a (duplicate) informational log entry on the second
call. -/
theorem claim9_dismiss_idempotent (s : SimState) (hm : s.mounted = true) :
    (dismissArbitrage s).arbitrage = none ∧
    (dismissArbitrage s).trucks = s.trucks ∧
    (dismissArbitrage (dismissArbitrage s)).trucks =
      (dismissArbitrage s).trucks ∧
    (dismissArbitrage (dismissArbitrage s)).arbitrage =
      (dismissArbitrage s).arbitrage ∧
    (dismissArbitrage (dismissArbitrage s)).eventsLog =
      { id := "evt-" ++ toString s.now, timestamp := s.now,
        type := "system", message := "Arbitrage opportunity dismissed",
        severity := "info" } :: (dismissArbitrage s).eventsLog := by
  simp [dismissArbitrage, hm]

/-- Witness for C9, at the reference state right after T+12000. -/
theorem claim9_witness :
    (run 0 (initOps ++ playbackOps)).mounted = true ∧
    (dismissArbitrage (run 0 (initOps ++ playbackOps))).arbitrage = none :=
  ⟨by decide,
   (claim9_dismiss_idempotent (run 0 (initOps ++ playbackOps))
     (by decide)).1⟩

/-- Claim C10: executing the fix and then dismissing before the grace
delay elapses does not cancel the pending resolution — the grace timer
uses the opportunity captured when `executeArbitrage` was called, so
when it fires TRK-402 still becomes resolved with velocity set to the
constant 65, not its configured velocity 68. -/
theorem claim10_pending_resolution_commits :
    (run 0 (initOps ++ playbackOps ++ [Op.execute, Op.dismiss])).arbitrage =
      none ∧
    targetStatus (run 0 c10ops) = some "resolved" ∧
    targetVelocity (run 0 c10ops) = some 65 ∧
    (ROUTES.map (fun c => (c.id, c.velocity))).head? =
      some ("TRK-402", 68) := by decide

end SupplyChain
